import Mathlib

/-!
Shallow embedding of the model-configuration and credential-resolution core of
the courseware repository: `settings/api_database.py`, `settings/api_manager.py`
and `settings/model_configs.py`.

Conventions of the embedding:
* The SQLite table `custom_models` is a `Store`: a list of `Row`s in insertion
  order plus the next AUTOINCREMENT id.  `CURRENT_TIMESTAMP` is an explicit
  `now : Nat` parameter.
* Python exceptions are `Except PyExc`; a function that catches all exceptions
  and returns a value has an `Except` result type that is provably always `.ok`.
* An injected `fault : Bool` argument models an unexpected infrastructure fault
  (disk or connection error) raised while executing a SQL statement inside
  `get_connection`; the context manager rolls the transaction back, so the
  durable state seen by the caller is the state from before the call.
* The float literal `0.2` of the source is modelled as the exact rational 1/5
  (`defaultTemperature`); temperatures are only stored and copied, never
  computed with, so only their identity matters.
* `str.lower` is modelled on the ASCII range by `lowerStr`, and the Python
  substring test `pat in s` by `strContains`; both are structural recursions so
  that concrete instances reduce in the kernel.
-/

/-- Python exception kinds that can escape a statement of the embedded code:
`sqlite3.IntegrityError` (UNIQUE violation), any other unexpected `Exception`,
and `ImportError` (importing a name a module does not define). -/
inductive PyExc
  | integrityError
  | otherError
  | importError
deriving DecidableEq

/-- The float literal `0.2` (column default of `temperature`), as the exact
rational 1/5. -/
def defaultTemperature : ℚ := ⟨1, 5, by norm_num, by norm_num⟩

/-- A row of the `custom_models` table (`settings/api_database.py`, lines
51-63). -/
structure Row where
  id : Nat
  name : String
  provider : String
  model_id : String
  base_url : String
  temperature : ℚ
  api_provider : String
  created_at : Nat
  updated_at : Nat
deriving DecidableEq

/-- The durable state of the `custom_models` table: rows in insertion order,
plus the next value of the AUTOINCREMENT primary key. -/
structure Store where
  rows : List Row
  nextId : Nat
deriving DecidableEq

/-- A freshly initialised database (`init_database` creates an empty table;
AUTOINCREMENT starts at 1). -/
def emptyStore : Store := ⟨[], 1⟩

/-- The multiset of names currently in the store, in row order. -/
def Store.names (s : Store) : List String := s.rows.map Row.name

/-- Embeds `model_exists(name)` (`api_database.py`, lines 216-222):
`SELECT 1 FROM custom_models WHERE name = ?` finds a row or not. -/
def modelExists (name : String) (s : Store) : Bool :=
  s.rows.any (fun r => r.name == name)

/-- The row built by the `INSERT INTO custom_models` statement of
`add_custom_model`: both timestamp columns get `CURRENT_TIMESTAMP`, the id is
the AUTOINCREMENT value. -/
def mkRow (now : Nat) (name model_id provider base_url : String) (temperature : ℚ)
    (api_provider : String) (nextId : Nat) : Row :=
  { id := nextId, name := name, provider := provider, model_id := model_id,
    base_url := base_url, temperature := temperature, api_provider := api_provider,
    created_at := now, updated_at := now }

/-- The `INSERT` statement of `add_custom_model` run inside `get_connection`
(`api_database.py`, lines 140-146): an injected fault raises an arbitrary
exception, a duplicate `name` violates the UNIQUE constraint and raises
`sqlite3.IntegrityError`, otherwise the row is inserted and committed.  An
error leaves the durable store as it was (rollback in `get_connection`,
lines 38-40). -/
def insertCustomModel (fault : Bool) (now : Nat) (name model_id provider base_url : String)
    (temperature : ℚ) (api_provider : String) (s : Store) : Except PyExc Store :=
  if fault then .error .otherError
  else if s.rows.any (fun r => r.name == name) then .error .integrityError
  else .ok { rows := s.rows ++ [mkRow now name model_id provider base_url temperature api_provider s.nextId],
             nextId := s.nextId + 1 }

/-- Embeds `add_custom_model(name, model_id, provider, base_url, temperature,
api_provider)` (`api_database.py`, lines 129-152).  The whole body is inside
`try`: `sqlite3.IntegrityError` is caught and reported as `False`, and any
other exception is also caught (`except Exception`), printed and reported as
`False`; the function itself therefore never raises, which the `Except`
result type makes provable. -/
def addCustomModel (fault : Bool) (now : Nat) (name model_id provider base_url : String)
    (temperature : ℚ) (api_provider : String) (s : Store) : Except PyExc (Bool × Store) :=
  match insertCustomModel fault now name model_id provider base_url temperature api_provider s with
  | .ok s' => .ok (true, s')
  | .error .integrityError => .ok (false, s)
  | .error _ => .ok (false, s)

/-- The optional keyword arguments of `update_custom_model`: `none` models an
argument left at its `None` default (field not supplied). -/
structure UpdateFields where
  model_id : Option String
  provider : Option String
  base_url : Option String
  temperature : Option ℚ
  api_provider : Option String
deriving DecidableEq

/-- True when no field is supplied: the dynamic `updates` list of
`update_custom_model` stays empty. -/
def UpdateFields.isEmpty (f : UpdateFields) : Bool :=
  f.model_id.isNone && f.provider.isNone && f.base_url.isNone &&
  f.temperature.isNone && f.api_provider.isNone

/-- The effect of the dynamically built `UPDATE` statement on one matching
row: each supplied field is overwritten, `updated_at` is set to
`CURRENT_TIMESTAMP`, everything else is untouched. -/
def applyUpdate (f : UpdateFields) (now : Nat) (r : Row) : Row :=
  { r with
    model_id := f.model_id.getD r.model_id
    provider := f.provider.getD r.provider
    base_url := f.base_url.getD r.base_url
    temperature := f.temperature.getD r.temperature
    api_provider := f.api_provider.getD r.api_provider
    updated_at := now }

/-- Embeds `update_custom_model` (`api_database.py`, lines 155-200).  With no
supplied field it returns `True` before touching the database; otherwise it
runs `UPDATE custom_models SET ... WHERE name = ?` and reports
`cursor.rowcount > 0`.  All exceptions are caught and reported as `False`
(after the rollback of `get_connection`). -/
def updateCustomModel (fault : Bool) (now : Nat) (name : String) (f : UpdateFields)
    (s : Store) : Except PyExc (Bool × Store) :=
  if f.isEmpty then .ok (true, s)
  else if fault then .ok (false, s)
  else .ok (s.rows.any (fun r => r.name == name),
    { s with rows := s.rows.map (fun r => if r.name == name then applyUpdate f now r else r) })

/-- Embeds `delete_custom_model` (`api_database.py`, lines 203-213):
`DELETE FROM custom_models WHERE name = ?`, reporting `cursor.rowcount > 0`;
all exceptions are caught and reported as `False`. -/
def deleteCustomModel (fault : Bool) (name : String) (s : Store) : Except PyExc (Bool × Store) :=
  if fault then .ok (false, s)
  else .ok (s.rows.any (fun r => r.name == name),
    { s with rows := s.rows.filter (fun r => !(r.name == name)) })

/-- Embeds `get_custom_model_by_name` (`api_database.py`, lines 106-126):
`SELECT * FROM custom_models WHERE name = ?` with `fetchone`. -/
def getCustomModelByName (name : String) (s : Store) : Option Row :=
  s.rows.find? (fun r => r.name == name)

/-- Byte-order comparison of two code-point lists, modelling the default
binary collation SQLite applies in `ORDER BY name` (code-point order coincides with UTF-8
byte order). -/
def charListLe : List Char → List Char → Bool
  | [], _ => true
  | _ :: _, [] => false
  | a :: as, b :: bs =>
    if a.toNat < b.toNat then true
    else if b.toNat < a.toNat then false
    else charListLe as bs

/-- Byte-order comparison of names for `ORDER BY name`. -/
def nameLe (a b : String) : Bool := charListLe a.data b.data

/-- Insertion step of the sort modelling `ORDER BY name`. -/
def insertByName (r : Row) : List Row → List Row
  | [] => [r]
  | x :: xs => if nameLe r.name x.name then r :: x :: xs else x :: insertByName r xs

/-- The row list as returned by `SELECT * FROM custom_models ORDER BY name`. -/
def sortRowsByName : List Row → List Row
  | [] => []
  | x :: xs => insertByName x (sortRowsByName xs)

/-- The dictionary shape built by `get_all_custom_models` for each row
(`api_database.py`, lines 90-102): the nested `config` mapping is flattened
into the fields `model`, `temperature`, `base_url`. -/
structure ExportedModel where
  id : Nat
  name : String
  provider : String
  model : String
  temperature : ℚ
  base_url : String
  api_provider : String
deriving DecidableEq

/-- One row turned into its exported dictionary. -/
def exportRow (r : Row) : ExportedModel :=
  { id := r.id, name := r.name, provider := r.provider, model := r.model_id,
    temperature := r.temperature, base_url := r.base_url, api_provider := r.api_provider }

/-- Embeds `get_all_custom_models` (`api_database.py`, lines 82-103). -/
def getAllCustomModels (s : Store) : List ExportedModel :=
  (sortRowsByName s.rows).map exportRow

/-- The nested `config` mapping of a legacy JSON record; `none` models an
absent key (looked up with `dict.get`). -/
structure LegacyConfig where
  model : Option String
  base_url : Option String
  temperature : Option ℚ
deriving DecidableEq

/-- One record of the legacy `custom_models.json` list, shaped
`{name, provider?, config: {model, base_url?, temperature?}, api_provider?}`;
`none` models an absent key. -/
structure LegacyModel where
  name : Option String
  provider : Option String
  config : Option LegacyConfig
  api_provider : Option String
deriving DecidableEq

/-- Reads the nested config as the migrator does: an absent `config` key
yields an empty dict. -/
def LegacyModel.effConfig (m : LegacyModel) : LegacyConfig :=
  m.config.getD ⟨none, none, none⟩

/-- Reads the record name as the migrator does, defaulting to the empty
string. -/
def LegacyModel.effName (m : LegacyModel) : String := m.name.getD ""

/-- Reads the model identifier with an empty-string default; the guard `not config.get("model")` of the
migrator treats the absent key (`None`) and the empty string alike, so both
collapse to `""` here. -/
def LegacyModel.effModelId (m : LegacyModel) : String :=
  m.effConfig.model.getD ""

/-- Embeds `migrate_from_json(json_models)` (`api_database.py`, lines 266-290):
records whose name or model identifier is missing/empty are skipped; the rest
are handed to `add_custom_model` with the documented defaults for absent
fields, and only successful inserts are counted.  `add_custom_model` never
raises, but an exception escaping it would propagate, hence the `Except`
result. -/
def migrateFromJson (now : Nat) (models : List LegacyModel) (s : Store) :
    Except PyExc (Nat × Store) :=
  match models with
  | [] => .ok (0, s)
  | m :: rest =>
    if m.effName = "" ∨ m.effModelId = "" then migrateFromJson now rest s
    else
      match addCustomModel false now m.effName m.effModelId
          (m.provider.getD "OpenAIChatCompletionClient")
          (m.effConfig.base_url.getD "https://openrouter.ai/api/v1")
          (m.effConfig.temperature.getD defaultTemperature)
          (m.api_provider.getD "OPENROUTER") s with
      | .ok (true, s') =>
        match migrateFromJson now rest s' with
        | .ok (n, s'') => .ok (n + 1, s'')
        | .error e => .error e
      | .ok (false, s') =>
        match migrateFromJson now rest s' with
        | .ok (n, s'') => .ok (n, s'')
        | .error e => .error e
      | .error e => .error e

/-- The file found at `settings/config/custom_models.json`: absent, present
but not valid JSON (`json.load` raises), or present with a parsed record
list. -/
inductive LegacyFile
  | absent
  | invalid
  | parsed (models : List LegacyModel)
deriving DecidableEq

/-- The part of the file system `_migrate_json_to_sqlite` can observe and
change: the legacy path and the `.migrated` backup path. -/
structure FsState where
  legacy : LegacyFile
  backupExists : Bool
deriving DecidableEq

/-- Embeds `_migrate_json_to_sqlite` (`api_manager.py`, lines 98-115).  When the
legacy file exists it is loaded; a parse error is caught and leaves
everything unchanged.  Only when the loaded list is truthy (non-empty) does
the function migrate and then rename the file to `<name>.migrated`; an empty
parsed list is left in place.  (The rename sits inside `if json_models:` but
outside `if migrated > 0:`, so it happens even when zero records were
migrated.) -/
def migrateJsonToSqlite (now : Nat) (fs : FsState) (s : Store) : FsState × Store :=
  match fs.legacy with
  | .absent => (fs, s)
  | .invalid => (fs, s)
  | .parsed models =>
    if models.isEmpty then (fs, s)
    else
      match migrateFromJson now models s with
      | .ok (_, s') => ({ legacy := .absent, backupExists := true }, s')
      | .error _ => (fs, s)

/-- Models `st.session_state` as far as this core touches it: the cached
`custom_models` list (`none` models the key being absent/deleted). -/
structure SessionState where
  customModelsCache : Option (List ExportedModel)
deriving DecidableEq

/-- Embeds `load_custom_models` (`api_manager.py`, lines 118-128): run the one-time
migration check, read all rows from SQLite, and overwrite the session cache
with the freshly read list.  It returns the post-migration file system and
store, the new session state, and the list handed back to the caller. -/
def loadCustomModels (now : Nat) (fs : FsState) (s : Store) :
    FsState × Store × SessionState × List ExportedModel :=
  let p := migrateJsonToSqlite now fs s
  let models := getAllCustomModels p.2
  (p.1, p.2, ⟨some models⟩, models)

/-- Manager-level `add_custom_model` (`api_manager.py`, lines 140-171): a
duplicate name is rejected up front with an error message; otherwise the row
is inserted with the aggregator defaults substituted for empty `base_url` or
`api_provider`, and on success the `custom_models` session cache is deleted.
(The `custom_api_key` parameter of the source is accepted but never used, so
it is omitted here.) -/
def managerAddCustomModel (now : Nat) (name provider model_id base_url : String)
    (temperature : ℚ) (api_provider : String) (s : Store) (sess : SessionState) :
    Except PyExc (Bool × Store × SessionState) :=
  if modelExists name s then .ok (false, s, sess)
  else
    match addCustomModel false now name model_id provider
        (if base_url = "" then "https://openrouter.ai/api/v1" else base_url)
        temperature
        (if api_provider = "" then "OPENROUTER" else api_provider) s with
    | .ok (true, s') => .ok (true, s', ⟨none⟩)
    | .ok (false, s') => .ok (false, s', sess)
    | .error e => .error e

/-- Embeds `remove_custom_model` (`api_manager.py`, lines 174-183): delete by name;
on success the `custom_models` session cache is deleted. -/
def managerRemoveCustomModel (name : String) (s : Store) (sess : SessionState) :
    Except PyExc (Bool × Store × SessionState) :=
  match deleteCustomModel false name s with
  | .ok (true, s') => .ok (true, s', ⟨none⟩)
  | .ok (false, s') => .ok (false, s', sess)
  | .error e => .error e

/-- The system-wide effect of an update on the store and the session state.
The repository calls the store-level `update_custom_model` directly: no
manager wrapper for update exists, and `update_custom_model`
(`api_database.py`, lines 155-200) never references `st.session_state`, so
the session cache passes through a successful update untouched. -/
def systemUpdateCustomModel (now : Nat) (name : String) (f : UpdateFields)
    (s : Store) (sess : SessionState) : Except PyExc (Bool × Store × SessionState) :=
  match updateCustomModel false now name f s with
  | .ok (b, s') => .ok (b, s', sess)
  | .error e => .error e

/-- Embeds `_get_secret(key, default)` (`api_manager.py`, lines 35-45): the process
environment first (`os.environ.get(key, "")`, taken only when non-empty),
then `st.secrets.get(key, default)`; `secretsOk = false` models the secrets
store being unreadable, in which case the `except` clause returns the
default.  `env` is total with `""` for absent variables, exactly as
`os.environ.get(key, "")` delivers it. -/
def getSecret (env : String → String) (secretsOk : Bool) (secrets : String → Option String)
    (key dflt : String) : String :=
  if env key ≠ "" then env key
  else if secretsOk then (secrets key).getD dflt
  else dflt

/-- The six credential keys consulted by `load_api_keys`
(`api_manager.py`, lines 51-58). -/
def apiKeyNames : List String :=
  ["OPENAI_API_KEY", "DEEPSEEK_API_KEY", "GEMINI_API_KEY",
   "OPENROUTER_API_KEY", "GROQ_API_KEY", "GROK_API_KEY"]

/-- Embeds `load_api_keys` (`api_manager.py`, lines 48-62): each of the six keys is
resolved through `_get_secret` with default `""`. -/
def loadApiKeys (env : String → String) (secretsOk : Bool)
    (secrets : String → Option String) : List (String × String) :=
  apiKeyNames.map (fun k => (k, getSecret env secretsOk secrets k ""))

/-- ASCII lowering of one character, modelling `str.lower` on the ASCII range
(all substring patterns of the source are ASCII). -/
def lowerChar (c : Char) : Char :=
  if 65 ≤ c.toNat ∧ c.toNat ≤ 90 then Char.ofNat (c.toNat + 32) else c

/-- Models `s.lower()` on the ASCII range. -/
def lowerStr (s : String) : String := ⟨s.data.map lowerChar⟩

/-- Helper of `strContains`: does the pattern start the given list? -/
def isPrefixList : List Char → List Char → Bool
  | [], _ => true
  | _ :: _, [] => false
  | p :: ps, c :: cs => p == c && isPrefixList ps cs

/-- Helper of `strContains`: does the pattern occur anywhere? -/
def containsList (pat : List Char) : List Char → Bool
  | [] => pat.isEmpty
  | c :: cs => isPrefixList pat (c :: cs) || containsList pat cs

/-- The Python substring test `pat in s`. -/
def strContains (s pat : String) : Bool := containsList pat.data s.data

/-- The credential family resolved for a built-in profile by the rule chain of
`get_all_available_models`. -/
inductive KeyTag
  | GEMINI
  | OPENROUTER
  | GROQ
  | GROK
  | DEEPSEEK
  | OPENAI
deriving DecidableEq

/-- The `current_keys` dictionary key each tag selects. -/
def keyNameOf : KeyTag → String
  | .GEMINI => "GEMINI_API_KEY"
  | .OPENROUTER => "OPENROUTER_API_KEY"
  | .GROQ => "GROQ_API_KEY"
  | .GROK => "GROK_API_KEY"
  | .DEEPSEEK => "DEEPSEEK_API_KEY"
  | .OPENAI => "OPENAI_API_KEY"

/-- The ordered substring rule chain of `get_all_available_models`
(`api_manager.py`, lines 199-218), applied to the lowercased `base_url` and
model name of a built-in profile.  The chain is transcribed branch by branch
in source order; the final `else` of the source is a second OPENAI fallback. -/
def inferApiKeyTag (base_url model : String) : KeyTag :=
  let b := lowerStr base_url
  let m := lowerStr model
  if strContains b "generativelanguage.googleapis.com" || strContains m "gemini" then .GEMINI
  else if strContains b "openrouter" then .OPENROUTER
  else if strContains b "groq" then .GROQ
  else if strContains b "x.ai" || strContains m "grok" then .GROK
  else if strContains b "deepseek" || (strContains m "deepseek" && !strContains b "openrouter") then .DEEPSEEK
  else if strContains b "openai" || strContains m "gpt" || b == "" then .OPENAI
  else .OPENAI

/-- One built-in entry of `MODEL_CHOICES` (`settings/model_configs.py`): the
provider tag and the claim-relevant part of the nested `config` dict (its
constant `response_format` and `model_info` sub-dicts carry no data any claim
refers to and are not modelled).  `api_key` holds the `OPENROUTER_API_KEY`
value captured when the module was imported. -/
structure BuiltinConfig where
  provider : String
  model : String
  base_url : String
  api_key : String
  temperature : ℚ
deriving DecidableEq

/-- The shared shape of the five built-in configs: all use the
`OpenAIChatCompletionClient` provider through the OpenRouter aggregator with
temperature 0.2 (`model_configs.py`, lines 22-144). -/
def builtinOpenRouter (model orKey : String) : BuiltinConfig :=
  ⟨"OpenAIChatCompletionClient", model, "https://openrouter.ai/api/v1", orKey, defaultTemperature⟩

/-- Embeds `MODEL_CHOICES` (`model_configs.py`, lines 150-156), parameterised by the
`OPENROUTER_API_KEY` value captured at module import. -/
def MODEL_CHOICES (orKey : String) : List (String × BuiltinConfig) :=
  [("DeepSeek-Chat", builtinOpenRouter "deepseek/deepseek-chat" orKey),
   ("GPT-4o-Mini", builtinOpenRouter "openai/gpt-4o-mini" orKey),
   ("Claude-Sonnet-3.5", builtinOpenRouter "anthropic/claude-3.5-sonnet" orKey),
   ("Gemini-Flash", builtinOpenRouter "google/gemini-2.0-flash-exp" orKey),
   ("Gemini-Pro", builtinOpenRouter "google/gemini-pro-1.5" orKey)]

/-- One iteration of the built-in loop of `get_all_available_models`
(`api_manager.py`, lines 195-220): the copied config gets its `api_key`
replaced by the credential selected by the substring rule chain, looked up in
`current_keys` (a total map with `""` defaults, as `dict.get(k, "")`
delivers). -/
def builtinWithKey (keys : String → String) (cfg : BuiltinConfig) : BuiltinConfig :=
  { cfg with api_key := keys (keyNameOf (inferApiKeyTag cfg.base_url cfg.model)) }

/-- The built-in half of `get_all_available_models` (`api_manager.py`, lines
194-220): every `MODEL_CHOICES` entry with its API key re-resolved through
the rule chain. -/
def getAllAvailableBuiltins (keys : String → String) (orKey : String) :
    List (String × BuiltinConfig) :=
  (MODEL_CHOICES orKey).map (fun p => (p.1, builtinWithKey keys p.2))

/-- The names defined at module level by `settings/api_database.py`, which
are exactly the names importable from it. -/
def apiDatabaseDefs : List String :=
  ["get_db_path", "get_connection", "init_database", "get_all_custom_models",
   "get_custom_model_by_name", "add_custom_model", "update_custom_model",
   "delete_custom_model", "model_exists", "get_provider_settings",
   "set_provider_settings", "migrate_from_json"]

/-- The dictionary `get_model_config` is specified to return: profile fields
plus the freshly resolved `api_key`. -/
structure ResolvedConfig where
  provider : String
  api_provider : String
  model : String
  base_url : String
  api_key : String
  temperature : ℚ
deriving DecidableEq

/-- The store branch of `get_model_config` (`model_configs.py`, lines
171-188): profile fields from the row, `api_key` looked up under
under the api_provider tag suffixed with `_API_KEY` in the freshly loaded
key map. -/
def resolveFromRow (keys : String → String) (r : Row) : ResolvedConfig :=
  { provider := r.provider, api_provider := r.api_provider, model := r.model_id,
    base_url := r.base_url, api_key := keys (r.api_provider ++ "_API_KEY"),
    temperature := r.temperature }

/-- The static-fallback branch of `get_model_config` (`model_configs.py`,
lines 190-196): the static config merged with `api_provider = "OPENROUTER"`;
its `api_key` is the stale module-import `OPENROUTER_API_KEY`. -/
def resolveFromBuiltin (cfg : BuiltinConfig) : ResolvedConfig :=
  { provider := cfg.provider, api_provider := "OPENROUTER", model := cfg.model,
    base_url := cfg.base_url, api_key := cfg.api_key, temperature := cfg.temperature }

/-- The body of `get_model_config` below its `import` line, with the imported
name bound to the store lookup the module actually exports
(`get_custom_model_by_name`): database rows take precedence, then
`MODEL_CHOICES.get(choice, default_config)` where `default_config` is the
DeepSeek built-in. -/
def getModelConfigAfterImport (keys : String → String) (orKey : String) (s : Store)
    (choice : String) : ResolvedConfig :=
  match getCustomModelByName choice s with
  | some row => resolveFromRow keys row
  | none =>
    match (MODEL_CHOICES orKey).lookup choice with
    | some cfg => resolveFromBuiltin cfg
    | none => resolveFromBuiltin (builtinOpenRouter "deepseek/deepseek-chat" orKey)

/-- Embeds `get_model_config(choice)` (`model_configs.py`, lines 158-196).  Its first
statement is `from settings.api_database import get_model_by_name`, but
`settings/api_database.py` defines no `get_model_by_name` (its lookup is
named `get_custom_model_by_name`, see `apiDatabaseDefs`), so the import —
executed on every call, being inside the function body — raises
`ImportError` before the lookup and fallback code below it can run. -/
def getModelConfig (keys : String → String) (orKey : String) (s : Store)
    (choice : String) : Except PyExc ResolvedConfig :=
  if apiDatabaseDefs.contains "get_model_by_name" then
    .ok (getModelConfigAfterImport keys orKey s choice)
  else .error .importError

/-- The store produced when `migrate_from_json` successfully inserts one
legacy record: the row built from the fields of the record with the documented
defaults for absent ones. -/
def insertedStore (now : Nat) (m : LegacyModel) (s : Store) : Store :=
  ⟨s.rows ++ [mkRow now m.effName m.effModelId
      (m.provider.getD "OpenAIChatCompletionClient")
      (m.effConfig.base_url.getD "https://openrouter.ai/api/v1")
      (m.effConfig.temperature.getD defaultTemperature)
      (m.api_provider.getD "OPENROUTER") s.nextId],
   s.nextId + 1⟩

/-- The non-`name` arguments of one store-level `create` call, used to state
properties of arbitrary sequences of creates sharing one name. -/
structure CreateArgs where
  model_id : String
  provider : String
  base_url : String
  temperature : ℚ
  api_provider : String
deriving DecidableEq

/-- A caller issuing a sequence of fault-free `add_custom_model` calls that
all share the same `name`; results are collected in order and an exception
would propagate. -/
def createSeq (now : Nat) (name : String) (args : List CreateArgs) (s : Store) :
    Except PyExc (List Bool × Store) :=
  match args with
  | [] => .ok ([], s)
  | a :: rest =>
    match addCustomModel false now name a.model_id a.provider a.base_url
        a.temperature a.api_provider s with
    | .ok (b, s') =>
      match createSeq now name rest s' with
      | .ok (bs, s'') => .ok (b :: bs, s'')
      | .error e => .error e
    | .error e => .error e

/-- The per-row projection the round-trip claim talks about: `name`,
`provider`, `model_id`, `base_url`, `temperature`, `api_provider` (the id and
the server-assigned timestamps are excluded). -/
def Row.profile (r : Row) : String × String × String × String × ℚ × String :=
  (r.name, r.provider, r.model_id, r.base_url, r.temperature, r.api_provider)

/-- An exported dictionary fed back to the migrator.  In Python the exported
dict already has the legacy shape, so this is the identity re-read of its
keys: every optional key is present. -/
def exportedToLegacy (e : ExportedModel) : LegacyModel :=
  { name := some e.name, provider := some e.provider,
    config := some ⟨some e.model, some e.base_url, some e.temperature⟩,
    api_provider := some e.api_provider }

/-- The float literal `0.7` of the update example in the spec, as the exact
rational 7/10. -/
def sevenTenths : ℚ := ⟨7, 10, by norm_num, by norm_num⟩

/-- Concrete fixture: a stored profile named `A`. -/
def rowA : Row :=
  mkRow 0 "A" "m" "OpenAIChatCompletionClient" "https://openrouter.ai/api/v1"
    defaultTemperature "OPENROUTER" 1

/-- Concrete fixture: a store holding only `rowA`. -/
def storeA : Store := ⟨[rowA], 2⟩

/-- Concrete fixture: a partial update supplying only `temperature`. -/
def tempOnlyUpdate : UpdateFields := ⟨none, none, none, some sevenTenths, none⟩

/-- Concrete fixture: a session whose cache holds the exported image of
`rowA` (temperature 0.2). -/
def cacheWithRowA : SessionState := ⟨some [exportRow rowA]⟩

/-- Lemma: `modelExists` agrees with membership of the name list. -/
theorem modelExists_iff_mem (name : String) (s : Store) :
    modelExists name s = true ↔ name ∈ s.names := by
  simp only [modelExists, Store.names, List.any_eq_true, beq_iff_eq, List.mem_map]

/-- Closed form of a fault-free `add_custom_model`: reject an existing name
leaving the store untouched, otherwise append the new row and bump the id. -/
theorem addCustomModel_false_eq (now : Nat) (name model_id provider base_url : String)
    (t : ℚ) (ap : String) (s : Store) :
    addCustomModel false now name model_id provider base_url t ap s =
      if modelExists name s then .ok (false, s)
      else .ok (true, ⟨s.rows ++ [mkRow now name model_id provider base_url t ap s.nextId],
        s.nextId + 1⟩) := by
  by_cases h : modelExists name s
  · simp only [addCustomModel, insertCustomModel, modelExists] at *
    simp [h]
  · simp only [addCustomModel, insertCustomModel, modelExists] at *
    simp [h]

/-- A name present in a store stays present when rows are appended. -/
theorem modelExists_append (name : String) (rows tail : List Row) (k k' : Nat)
    (h : modelExists name ⟨rows, k⟩ = true) : modelExists name ⟨rows ++ tail, k'⟩ = true := by
  simp only [modelExists, List.any_eq_true] at *
  obtain ⟨r, hr, hname⟩ := h
  exact ⟨r, List.mem_append_left _ hr, hname⟩

/-- A fault-free migration run never raises, and it only ever appends rows. -/
theorem migrateFromJson_ok (now : Nat) (l : List LegacyModel) :
    ∀ s : Store, ∃ n s' tail, migrateFromJson now l s = .ok (n, s')
      ∧ s'.rows = s.rows ++ tail := by
  induction l with
  | nil => intro s; exact ⟨0, s, [], rfl, by simp⟩
  | cons m rest ih =>
    intro s
    by_cases hskip : m.effName = "" ∨ m.effModelId = ""
    · obtain ⟨n, s', tail, heq, hrows⟩ := ih s
      exact ⟨n, s', tail, by simp only [migrateFromJson, if_pos hskip]; exact heq, hrows⟩
    · by_cases hex : modelExists m.effName s
      · obtain ⟨n, s', tail, heq, hrows⟩ := ih s
        refine ⟨n, s', tail, ?_, hrows⟩
        simp only [migrateFromJson, if_neg hskip, addCustomModel_false_eq, if_pos hex, heq]
      · set s₁ : Store := ⟨s.rows ++ [mkRow now m.effName m.effModelId
          (m.provider.getD "OpenAIChatCompletionClient")
          (m.effConfig.base_url.getD "https://openrouter.ai/api/v1")
          (m.effConfig.temperature.getD defaultTemperature)
          (m.api_provider.getD "OPENROUTER") s.nextId], s.nextId + 1⟩ with hs₁
        obtain ⟨n, s', tail, heq, hrows⟩ := ih s₁
        refine ⟨n + 1, s', mkRow now m.effName m.effModelId
          (m.provider.getD "OpenAIChatCompletionClient")
          (m.effConfig.base_url.getD "https://openrouter.ai/api/v1")
          (m.effConfig.temperature.getD defaultTemperature)
          (m.api_provider.getD "OPENROUTER") s.nextId :: tail, ?_, ?_⟩
        · simp only [migrateFromJson, if_neg hskip, addCustomModel_false_eq, if_neg hex, ← hs₁, heq]
        · rw [hrows, hs₁]
          simp


/-- Step lemma: a record with a missing/empty name or model identifier is
skipped. -/
theorem migrateFromJson_cons_skip (now : Nat) (m : LegacyModel) (rest : List LegacyModel)
    (s : Store) (hskip : m.effName = "" ∨ m.effModelId = "") :
    migrateFromJson now (m :: rest) s = migrateFromJson now rest s := by
  simp only [migrateFromJson, if_pos hskip]

/-- Step lemma: a valid record whose name already exists fails its insert and
contributes nothing. -/
theorem migrateFromJson_cons_existing (now : Nat) (m : LegacyModel)
    (rest : List LegacyModel) (s : Store)
    (hskip : ¬(m.effName = "" ∨ m.effModelId = ""))
    (hex : modelExists m.effName s = true) :
    migrateFromJson now (m :: rest) s = migrateFromJson now rest s := by
  simp only [migrateFromJson, if_neg hskip, addCustomModel_false_eq, if_pos hex]
  cases h : migrateFromJson now rest s with
  | ok p => obtain ⟨n, s'⟩ := p; rfl
  | error e => rfl

/-- Step lemma: a valid record with a fresh name is inserted and counted. -/
theorem migrateFromJson_cons_fresh (now : Nat) (m : LegacyModel)
    (rest : List LegacyModel) (s : Store)
    (hskip : ¬(m.effName = "" ∨ m.effModelId = ""))
    (hex : modelExists m.effName s = false) :
    migrateFromJson now (m :: rest) s =
      match migrateFromJson now rest (insertedStore now m s) with
      | .ok (n, s'') => .ok (n + 1, s'')
      | .error e => .error e := by
  simp only [migrateFromJson, if_neg hskip, addCustomModel_false_eq, hex, Bool.false_eq_true,
    if_false, insertedStore]

/-- Names present before a migration run are still present afterwards. -/
theorem migrateFromJson_mono (now : Nat) (l : List LegacyModel) (s : Store)
    (n : Nat) (s' : Store) (h : migrateFromJson now l s = .ok (n, s'))
    (name : String) (hm : modelExists name s = true) : modelExists name s' = true := by
  obtain ⟨n₀, s₀, tail, heq, hrows⟩ := migrateFromJson_ok now l s
  rw [h] at heq
  injection heq with heq
  injection heq with _ heq
  subst heq
  have hs' : s' = ⟨s.rows ++ tail, s'.nextId⟩ := by
    cases s'
    simpa using hrows
  rw [hs']
  exact modelExists_append name s.rows tail s.nextId s'.nextId (by simpa using hm)

/-- After a migration run, the name of every processed record (non-empty name
and model identifier) is present in the resulting store, whether this run
inserted it, an earlier record of the same run did, or it was already
there. -/
theorem migrateFromJson_processed (now : Nat) (l : List LegacyModel) :
    ∀ (s : Store) (n : Nat) (s' : Store), migrateFromJson now l s = .ok (n, s') →
      ∀ m ∈ l, m.effName ≠ "" → m.effModelId ≠ "" → modelExists m.effName s' = true := by
  induction l with
  | nil => intro s n s' _ m hm; cases hm
  | cons m₀ rest ih =>
    intro s n s' h m hm hname hmid
    by_cases hskip : m₀.effName = "" ∨ m₀.effModelId = ""
    · rw [migrateFromJson_cons_skip now m₀ rest s hskip] at h
      rcases List.mem_cons.mp hm with hm | hm
      · subst hm
        exact absurd hskip (by simp [hname, hmid])
      · exact ih s n s' h m hm hname hmid
    · by_cases hex : modelExists m₀.effName s
      · rw [migrateFromJson_cons_existing now m₀ rest s hskip hex] at h
        rcases List.mem_cons.mp hm with hm | hm
        · subst hm
          exact migrateFromJson_mono now rest s n s' h _ hex
        · exact ih s n s' h m hm hname hmid
      · rw [migrateFromJson_cons_fresh now m₀ rest s hskip (by simpa using hex)] at h
        cases heq : migrateFromJson now rest (insertedStore now m₀ s) with
        | ok p =>
          rw [heq] at h
          obtain ⟨n₁, s₁'⟩ := p
          injection h with h
          injection h with _ h
          subst h
          rcases List.mem_cons.mp hm with hm | hm
          · subst hm
            exact migrateFromJson_mono now rest _ n₁ _ heq _
              (by simp [insertedStore, modelExists, mkRow])
          · exact ih _ n₁ _ heq m hm hname hmid
        | error e => rw [heq] at h; cases h

/-- A migration run over records whose names all already exist (or that are
skipped for missing fields) migrates nothing and leaves the store
unchanged. -/
theorem migrateFromJson_noop (now : Nat) (l : List LegacyModel) :
    ∀ s : Store,
      (∀ m ∈ l, m.effName ≠ "" → m.effModelId ≠ "" → modelExists m.effName s = true) →
      migrateFromJson now l s = .ok (0, s) := by
  induction l with
  | nil => intro s _; rfl
  | cons m rest ih =>
    intro s h
    by_cases hskip : m.effName = "" ∨ m.effModelId = ""
    · rw [migrateFromJson_cons_skip now m rest s hskip]
      exact ih s (fun m' hm' => h m' (List.mem_cons_of_mem _ hm'))
    · have hname : m.effName ≠ "" := fun hc => hskip (Or.inl hc)
      have hmid : m.effModelId ≠ "" := fun hc => hskip (Or.inr hc)
      have hex : modelExists m.effName s = true := h m (List.mem_cons_self _ _) hname hmid
      rw [migrateFromJson_cons_existing now m rest s hskip hex]
      exact ih s (fun m' hm' => h m' (List.mem_cons_of_mem _ hm'))

/-- Every create against a store that already holds the name reports `false`
and leaves the store untouched, whatever the other arguments are. -/
theorem createSeq_existing (now : Nat) (name : String) (args : List CreateArgs) :
    ∀ s : Store, modelExists name s = true →
      createSeq now name args s = .ok (List.replicate args.length false, s) := by
  induction args with
  | nil => intro s _; rfl
  | cons a rest ih =>
    intro s h
    simp only [createSeq, addCustomModel_false_eq, if_pos h, ih s h, List.length_cons,
      List.replicate_succ]

/-- Inserting into the sorted list permutes consing. -/
theorem insertByName_perm (r : Row) (l : List Row) : (insertByName r l).Perm (r :: l) := by
  induction l with
  | nil => exact List.Perm.refl _
  | cons x xs ih =>
    by_cases h : nameLe r.name x.name = true
    · simp [insertByName, h]
    · simp only [insertByName, if_neg h]
      exact (List.Perm.cons x ih).trans (List.Perm.swap r x xs)

/-- Lemma: `ORDER BY name` returns a permutation of the stored rows. -/
theorem sortRowsByName_perm (l : List Row) : (sortRowsByName l).Perm l := by
  induction l with
  | nil => exact List.Perm.refl _
  | cons x xs ih =>
    exact (insertByName_perm x (sortRowsByName xs)).trans (List.Perm.cons x ih)

/-- Migrating a batch of rows re-encoded as legacy records into a store that
holds none of their (pairwise distinct, non-empty) names inserts every one of
them, preserving the claim-relevant fields. -/
theorem migrateFromJson_fresh (now : Nat) :
    ∀ (rows : List Row) (s₀ : Store),
      (rows.map Row.name).Nodup →
      (∀ r ∈ rows, r.name ≠ "" ∧ r.model_id ≠ "") →
      (∀ r ∈ rows, modelExists r.name s₀ = false) →
      ∃ s' : Store,
        migrateFromJson now (rows.map (fun r => exportedToLegacy (exportRow r))) s₀
          = .ok (rows.length, s')
        ∧ s'.rows.map Row.profile = s₀.rows.map Row.profile ++ rows.map Row.profile := by
  intro rows
  induction rows with
  | nil => intro s₀ _ _ _; exact ⟨s₀, rfl, by simp⟩
  | cons r rest ih =>
    intro s₀ hnodup hvalid hfresh
    have hvr := hvalid r (List.mem_cons_self _ _)
    have hEffName : (exportedToLegacy (exportRow r)).effName = r.name := rfl
    have hskip : ¬((exportedToLegacy (exportRow r)).effName = ""
        ∨ (exportedToLegacy (exportRow r)).effModelId = "") := by
      rintro (hc | hc)
      · exact hvr.1 hc
      · exact hvr.2 hc
    have hex : modelExists (exportedToLegacy (exportRow r)).effName s₀ = false :=
      hfresh r (List.mem_cons_self _ _)
    have hnotin : r.name ∉ rest.map Row.name := (List.nodup_cons.mp hnodup).1
    obtain ⟨s', heq, hprof⟩ := ih (insertedStore now (exportedToLegacy (exportRow r)) s₀)
      (List.nodup_cons.mp hnodup).2
      (fun r' hr' => hvalid r' (List.mem_cons_of_mem _ hr'))
      (fun r' hr' => by
        have h₀ : modelExists r'.name s₀ = false := hfresh r' (List.mem_cons_of_mem _ hr')
        have hne : r.name ≠ r'.name := by
          intro hc
          exact hnotin (hc ▸ List.mem_map_of_mem Row.name hr')
        simp only [insertedStore, modelExists, List.any_append, List.any_cons, List.any_nil,
          Bool.or_false, Bool.or_eq_false_iff]
        refine ⟨by simpa [modelExists] using h₀, ?_⟩
        simp only [mkRow, hEffName, beq_eq_false_iff_ne, ne_eq]
        exact hne)
    refine ⟨s', ?_, ?_⟩
    · rw [List.map_cons, migrateFromJson_cons_fresh now _ _ s₀ hskip hex, heq]
      rfl
    · rw [hprof]
      simp [insertedStore, mkRow, Row.profile, exportedToLegacy, exportRow,
        LegacyModel.effName, LegacyModel.effConfig, LegacyModel.effModelId]

/-- C1: the claim says `resolve_profile` (`get_model_config`) returns, for
every string name, a structurally valid configuration without raising.  The
code disagrees: the first statement of the function imports `get_model_by_name`
from `settings.api_database`, a name that module does not define, so every
call — whatever the name, the store or the key set — raises `ImportError`
before the store lookup and the built-in/default fallback below the import
can run. -/
theorem C1_get_model_config_always_raises_ImportError (keys : String → String)
    (orKey : String) (s : Store) (choice : String) :
    getModelConfig keys orKey s choice = .error .importError := rfl

/-- C2 counterexample: an unexpected fault during a create is rolled back but
NOT re-raised — `add_custom_model` catches every exception and converts it to
the return value `false`, so at this concrete faulty input the caller sees
`.ok (false, unchanged store)` where the claim demands an `.error`. -/
theorem C2_counterexample_fault_not_reraised :
    addCustomModel true 0 "TeamGPT" "openai/gpt-4o" "OpenAIChatCompletionClient"
      "https://openrouter.ai/api/v1" defaultTemperature "OPENAI" emptyStore
      = .ok (false, emptyStore) := rfl

/-- C2 (amended): if an unexpected fault occurs during a mutating store
operation (create, update with at least one supplied field, delete), the
transaction is rolled back so the store is exactly as it was before the call
began, and the operation reports failure to its caller by returning `false`
rather than re-raising the exception. -/
theorem C2_fault_rolls_back_and_returns_false (now : Nat)
    (name model_id provider base_url : String) (temperature : ℚ) (api_provider : String)
    (f : UpdateFields) (s : Store) :
    addCustomModel true now name model_id provider base_url temperature api_provider s
      = .ok (false, s)
    ∧ (f.isEmpty = false → updateCustomModel true now name f s = .ok (false, s))
    ∧ deleteCustomModel true name s = .ok (false, s) := by
  refine ⟨rfl, ?_, rfl⟩
  intro h
  simp [updateCustomModel, h]

/-- C2 witness: the faulty update branch of the amended theorem at a concrete
input. -/
theorem C2_fault_witness :
    updateCustomModel true 0 "TeamGPT" ⟨none, none, none, some sevenTenths, none⟩ emptyStore
      = .ok (false, emptyStore) :=
  (C2_fault_rolls_back_and_returns_false 0 "TeamGPT" "" "" "" defaultTemperature "OPENAI"
    ⟨none, none, none, some sevenTenths, none⟩ emptyStore).2.1 rfl

/-- C3: starting from a store that does not yet hold `name`, in any sequence
of creates sharing that name exactly the first succeeds: it returns `true`
and inserts the row, every subsequent create returns `false` and leaves the
store exactly as the first left it, and the names in the store stay pairwise
distinct, so `name` remains a unique key after every operation. -/
theorem C3_create_unique_name (now : Nat) (name : String) (a : CreateArgs)
    (rest : List CreateArgs) (s : Store)
    (hfresh : modelExists name s = false) (hnodup : s.names.Nodup) :
    ∃ s₁ : Store,
      addCustomModel false now name a.model_id a.provider a.base_url a.temperature
        a.api_provider s = .ok (true, s₁)
      ∧ createSeq now name (a :: rest) s
          = .ok (true :: List.replicate rest.length false, s₁)
      ∧ s₁.names.Nodup := by
  set s₁ : Store := ⟨s.rows ++ [mkRow now name a.model_id a.provider a.base_url
    a.temperature a.api_provider s.nextId], s.nextId + 1⟩ with hs₁
  have hadd : addCustomModel false now name a.model_id a.provider a.base_url a.temperature
      a.api_provider s = .ok (true, s₁) := by
    rw [addCustomModel_false_eq, hfresh]
    rfl
  have hex₁ : modelExists name s₁ = true := by
    simp [hs₁, modelExists, mkRow]
  have hnotin : name ∉ s.names := by
    intro hmem
    rw [(modelExists_iff_mem name s).mpr hmem] at hfresh
    cases hfresh
  refine ⟨s₁, hadd, ?_, ?_⟩
  · simp only [createSeq, hadd, createSeq_existing now name rest s₁ hex₁]
  · have : s₁.names = s.names ++ [name] := by
      simp [hs₁, Store.names, mkRow]
    rw [this]
    simp [List.nodup_append, hnodup, hnotin]

/-- C3 witness: two creates of `TeamGPT` against an empty store; the first
succeeds, the second fails, the final store is the one the first produced. -/
theorem C3_witness :
    ∃ s₁ : Store,
      addCustomModel false 0 "TeamGPT" "openai/gpt-4o" "OpenAIChatCompletionClient"
        "https://openrouter.ai/api/v1" defaultTemperature "OPENAI" emptyStore = .ok (true, s₁)
      ∧ createSeq 0 "TeamGPT"
          [⟨"openai/gpt-4o", "OpenAIChatCompletionClient", "https://openrouter.ai/api/v1",
            defaultTemperature, "OPENAI"⟩,
           ⟨"other/model", "OpenAIChatCompletionClient", "", defaultTemperature, ""⟩]
          emptyStore
          = .ok (true :: List.replicate 1 false, s₁)
      ∧ s₁.names.Nodup :=
  C3_create_unique_name 0 "TeamGPT"
    ⟨"openai/gpt-4o", "OpenAIChatCompletionClient", "https://openrouter.ai/api/v1",
      defaultTemperature, "OPENAI"⟩
    [⟨"other/model", "OpenAIChatCompletionClient", "", defaultTemperature, ""⟩]
    emptyStore rfl (by decide)

/-- C4: a second migration run over the same legacy input, starting from the
store the first run produced, reports zero migrated records and leaves the
store bit-for-bit unchanged — every record is either skipped for missing
fields (as it was the first time) or rejected as a duplicate of a name the
first run guaranteed to be present. -/
theorem C4_migrate_twice_idempotent (now now' : Nat) (l : List LegacyModel)
    (s s' : Store) (n : Nat) (h : migrateFromJson now l s = .ok (n, s')) :
    migrateFromJson now' l s' = .ok (0, s') :=
  migrateFromJson_noop now' l s' (migrateFromJson_processed now l s n s' h)

/-- C4 witness: migrating a single legacy record named `Old1` with model `x` into an
empty store and running the migrator again on the result. -/
theorem C4_witness :
    migrateFromJson 1
      [{ name := some "Old1", provider := none,
         config := some { model := some "x", base_url := none, temperature := none },
         api_provider := none }]
      ⟨[mkRow 0 "Old1" "x" "OpenAIChatCompletionClient" "https://openrouter.ai/api/v1"
          defaultTemperature "OPENROUTER" 1], 2⟩
      = .ok (0, ⟨[mkRow 0 "Old1" "x" "OpenAIChatCompletionClient"
          "https://openrouter.ai/api/v1" defaultTemperature "OPENROUTER" 1], 2⟩) :=
  C4_migrate_twice_idempotent 0 1
    [{ name := some "Old1", provider := none,
       config := some { model := some "x", base_url := none, temperature := none },
       api_provider := none }]
    emptyStore
    ⟨[mkRow 0 "Old1" "x" "OpenAIChatCompletionClient" "https://openrouter.ai/api/v1"
        defaultTemperature "OPENROUTER" 1], 2⟩
    1 rfl

/-- C5: `_get_secret` returns the process environment value when it is
present (non-empty), regardless of the secrets store — in particular when
both sources hold the key the environment wins; with an empty/absent
environment value it returns the secrets-store entry when present, and the
empty-string default otherwise (also when the secrets store itself is
unreadable); being a total function, it never raises. -/
theorem C5_get_secret_lookup_order (env : String → String)
    (secrets : String → Option String) (key : String) :
    (env key ≠ "" → getSecret env true secrets key "" = env key
      ∧ getSecret env false secrets key "" = env key)
    ∧ (∀ v, env key ≠ "" → secrets key = some v →
        getSecret env true secrets key "" = env key)
    ∧ (env key = "" → ∀ v, secrets key = some v → getSecret env true secrets key "" = v)
    ∧ (env key = "" → secrets key = none → getSecret env true secrets key "" = "")
    ∧ (env key = "" → getSecret env false secrets key "" = "") := by
  refine ⟨fun h => ⟨?_, ?_⟩, fun v h _ => ?_, fun h v hv => ?_, fun h hn => ?_, fun h => ?_⟩ <;>
    simp [getSecret, h, *]

/-- C5 witness: both an environment variable and a secrets-store entry exist
for `OPENAI_API_KEY`; the environment value is returned. -/
theorem C5_witness :
    getSecret (fun k => if k = "OPENAI_API_KEY" then "env-value" else "") true
      (fun _ => some "store-value") "OPENAI_API_KEY" "" = "env-value" :=
  (C5_get_secret_lookup_order (fun k => if k = "OPENAI_API_KEY" then "env-value" else "")
    (fun _ => some "store-value") "OPENAI_API_KEY").2.1 "store-value" (by decide) rfl

/-- C6: the credential-family tag of a built-in profile follows the fixed
ordered rule chain: the Gemini domain or a model name containing `gemini`
selects GEMINI before the `openrouter` base-url rule; `openrouter` is checked
before `groq`; `groq` before `x.ai`/`grok`; those before `deepseek`; and when
every vendor rule fails the tag is OPENAI (both through the
`openai`/`gpt`/empty-url rule and through the final fallback).  Concretely,
the built-in `Gemini-Flash` — whose `model_id` contains `gemini` while its
`base_url` is the OpenRouter aggregator — receives the `GEMINI_API_KEY`
credential. -/
theorem C6_key_tag_rule_order (base_url model : String) :
    (strContains (lowerStr base_url) "generativelanguage.googleapis.com" = true
        ∨ strContains (lowerStr model) "gemini" = true →
      inferApiKeyTag base_url model = .GEMINI)
    ∧ (strContains (lowerStr base_url) "generativelanguage.googleapis.com" = false →
        strContains (lowerStr model) "gemini" = false →
        strContains (lowerStr base_url) "openrouter" = true →
      inferApiKeyTag base_url model = .OPENROUTER)
    ∧ (strContains (lowerStr base_url) "generativelanguage.googleapis.com" = false →
        strContains (lowerStr model) "gemini" = false →
        strContains (lowerStr base_url) "openrouter" = false →
        strContains (lowerStr base_url) "groq" = true →
      inferApiKeyTag base_url model = .GROQ)
    ∧ (strContains (lowerStr base_url) "generativelanguage.googleapis.com" = false →
        strContains (lowerStr model) "gemini" = false →
        strContains (lowerStr base_url) "openrouter" = false →
        strContains (lowerStr base_url) "groq" = false →
        strContains (lowerStr base_url) "x.ai" = true ∨ strContains (lowerStr model) "grok" = true →
      inferApiKeyTag base_url model = .GROK)
    ∧ (strContains (lowerStr base_url) "generativelanguage.googleapis.com" = false →
        strContains (lowerStr model) "gemini" = false →
        strContains (lowerStr base_url) "openrouter" = false →
        strContains (lowerStr base_url) "groq" = false →
        strContains (lowerStr base_url) "x.ai" = false →
        strContains (lowerStr model) "grok" = false →
        strContains (lowerStr base_url) "deepseek" = true
          ∨ strContains (lowerStr model) "deepseek" = true →
      inferApiKeyTag base_url model = .DEEPSEEK)
    ∧ (strContains (lowerStr base_url) "generativelanguage.googleapis.com" = false →
        strContains (lowerStr model) "gemini" = false →
        strContains (lowerStr base_url) "openrouter" = false →
        strContains (lowerStr base_url) "groq" = false →
        strContains (lowerStr base_url) "x.ai" = false →
        strContains (lowerStr model) "grok" = false →
        strContains (lowerStr base_url) "deepseek" = false →
        strContains (lowerStr model) "deepseek" = false →
      inferApiKeyTag base_url model = .OPENAI)
    ∧ inferApiKeyTag "https://openrouter.ai/api/v1" "google/gemini-2.0-flash-exp" = .GEMINI
    ∧ (∀ keys : String → String, ∀ orKey : String,
        ((getAllAvailableBuiltins keys orKey).lookup "Gemini-Flash").map BuiltinConfig.api_key
          = some (keys "GEMINI_API_KEY")) := by
  refine ⟨?_, ?_, ?_, ?_, ?_, ?_, by decide, fun keys orKey => rfl⟩
  · rintro (h | h) <;> simp [inferApiKeyTag, h]
  · intro h1 h2 h3
    simp [inferApiKeyTag, h1, h2, h3]
  · intro h1 h2 h3 h4
    simp [inferApiKeyTag, h1, h2, h3, h4]
  · rintro h1 h2 h3 h4 (h5 | h5) <;> simp [inferApiKeyTag, h1, h2, h3, h4, h5]
  · rintro h1 h2 h3 h4 h5 h6 (h7 | h7) <;> simp [inferApiKeyTag, h1, h2, h3, h4, h5, h6, h7]
  · intro h1 h2 h3 h4 h5 h6 h7 h8
    by_cases hb : strContains (lowerStr base_url) "openai" = true <;>
      by_cases hm : strContains (lowerStr model) "gpt" = true <;>
        by_cases he : lowerStr base_url == "" <;>
          simp [inferApiKeyTag, h1, h2, h3, h4, h5, h6, h7, h8, hb, hm, he]

/-- C6 witness: the `openrouter` rule fires for the `GPT-4o-Mini` profile once
the Gemini rules have failed. -/
theorem C6_witness :
    inferApiKeyTag "https://openrouter.ai/api/v1" "openai/gpt-4o-mini" = .OPENROUTER :=
  (C6_key_tag_rule_order "https://openrouter.ai/api/v1" "openai/gpt-4o-mini").2.1
    (by decide) (by decide) (by decide)

/-- C7: partial update semantics.  With no supplied field the call is a no-op
returning `true` (the source returns before touching the database, so this
holds even for nonexistent names).  With at least one supplied field and no
matching row it returns `false` and the store is unchanged.  With at least
one supplied field and a matching row it returns `true`; rows with other
names are untouched, and each matching row keeps its `id`, `name` and
`created_at`, gets `updated_at := now`, and each of the five updatable fields
either takes the supplied value or keeps its prior value when not
supplied. -/
theorem C7_update_partial_fields (now : Nat) (name : String) (f : UpdateFields) (s : Store) :
    (f.isEmpty = true → updateCustomModel false now name f s = .ok (true, s))
    ∧ (f.isEmpty = false → modelExists name s = false →
        updateCustomModel false now name f s = .ok (false, s))
    ∧ (f.isEmpty = false → modelExists name s = true →
        ∃ rows' : List Row,
          updateCustomModel false now name f s = .ok (true, ⟨rows', s.nextId⟩)
          ∧ List.Forall₂ (fun r r' : Row =>
              (r.name ≠ name → r' = r)
              ∧ (r.name = name →
                  r'.id = r.id ∧ r'.name = r.name ∧ r'.created_at = r.created_at
                  ∧ r'.updated_at = now
                  ∧ r'.model_id = f.model_id.getD r.model_id
                  ∧ r'.provider = f.provider.getD r.provider
                  ∧ r'.base_url = f.base_url.getD r.base_url
                  ∧ r'.temperature = f.temperature.getD r.temperature
                  ∧ r'.api_provider = f.api_provider.getD r.api_provider))
            s.rows rows') := by
  refine ⟨fun h => by simp [updateCustomModel, h], fun h1 h2 => ?_, fun h1 h2 => ?_⟩
  · have hall : ∀ r ∈ s.rows, (r.name == name) = false := by
      simpa [modelExists, List.any_eq_false] using h2
    have hmap : s.rows.map (fun r => if r.name == name then applyUpdate f now r else r)
        = s.rows :=
      calc s.rows.map (fun r => if r.name == name then applyUpdate f now r else r)
          = s.rows.map id := List.map_congr_left (fun r hr => by rw [hall r hr]; rfl)
        _ = s.rows := List.map_id _
    simp only [updateCustomModel, h1, Bool.false_eq_true, if_false, modelExists] at *
    rw [h2, hmap]
  · refine ⟨s.rows.map (fun r => if r.name == name then applyUpdate f now r else r), ?_, ?_⟩
    · simp only [updateCustomModel, h1, Bool.false_eq_true, if_false, modelExists] at *
      rw [h2]
    · rw [List.forall₂_map_right_iff]
      rw [List.forall₂_same]
      intro r _
      constructor
      · intro hne
        rw [if_neg (by simpa using hne)]
      · intro heq
        rw [if_pos (by simpa using heq)]
        simp [applyUpdate]

/-- C7 witness: the matched branch for the store holding only profile `A`,
updating only the temperature to 0.7. -/
theorem C7_witness :
    ∃ rows' : List Row,
      updateCustomModel false 1 "A" tempOnlyUpdate storeA = .ok (true, ⟨rows', storeA.nextId⟩)
      ∧ List.Forall₂ (fun r r' : Row =>
          (r.name ≠ "A" → r' = r)
          ∧ (r.name = "A" →
              r'.id = r.id ∧ r'.name = r.name ∧ r'.created_at = r.created_at
              ∧ r'.updated_at = 1
              ∧ r'.model_id = tempOnlyUpdate.model_id.getD r.model_id
              ∧ r'.provider = tempOnlyUpdate.provider.getD r.provider
              ∧ r'.base_url = tempOnlyUpdate.base_url.getD r.base_url
              ∧ r'.temperature = tempOnlyUpdate.temperature.getD r.temperature
              ∧ r'.api_provider = tempOnlyUpdate.api_provider.getD r.api_provider))
        storeA.rows rows' :=
  (C7_update_partial_fields 1 "A" tempOnlyUpdate storeA).2.2 (by decide) (by decide)

/-- C8 counterexample: the claim says every create, update or delete drops
the cached profile list.  Updates do not: the only update path in the repository
is the store-level `update_custom_model`, which never touches
`st.session_state` (no manager wrapper for update exists).  At this concrete
input the update succeeds — the stored temperature becomes 0.7 — yet the
session still carries the stale cached list with temperature 0.2 instead of
having been dropped. -/
theorem C8_counterexample_update_leaves_cache :
    systemUpdateCustomModel 1 "A" tempOnlyUpdate storeA cacheWithRowA
      = .ok (true, ⟨[applyUpdate tempOnlyUpdate 1 rowA], 2⟩, cacheWithRowA)
    ∧ cacheWithRowA ≠ ⟨none⟩ := ⟨rfl, by decide⟩

/-- C8 (amended): create and delete, issued through their manager wrappers,
drop the `custom_models` session cache wholesale on success; the store-level
update — the only update path the repository has — passes the session cache
through untouched; and a profile-list read (`load_custom_models`) re-queries
the store on every call, returning and re-caching exactly the post-migration
store contents, so list reads reflect the new store state regardless of the
cache. -/
theorem C8_cache_invalidation_amended (now : Nat)
    (name provider model_id base_url : String) (temperature : ℚ) (api_provider : String)
    (f : UpdateFields) (s : Store) (sess : SessionState) (fs : FsState) :
    (∀ s' sess', managerAddCustomModel now name provider model_id base_url temperature
        api_provider s sess = .ok (true, s', sess') → sess' = ⟨none⟩)
    ∧ (∀ s' sess', managerRemoveCustomModel name s sess = .ok (true, s', sess') →
        sess' = ⟨none⟩)
    ∧ (∀ b s' sess', systemUpdateCustomModel now name f s sess = .ok (b, s', sess') →
        sess' = sess)
    ∧ (loadCustomModels now fs s).2.2.1
        = ⟨some (getAllCustomModels (migrateJsonToSqlite now fs s).2)⟩
    ∧ (loadCustomModels now fs s).2.2.2
        = getAllCustomModels (migrateJsonToSqlite now fs s).2 := by
  refine ⟨?_, ?_, ?_, rfl, rfl⟩
  · intro s' sess' h
    by_cases hex : modelExists name s = true
    · simp [managerAddCustomModel, hex] at h
    · have hex' : modelExists name s = false := by simpa using hex
      simp only [managerAddCustomModel, addCustomModel_false_eq, hex', Bool.false_eq_true,
        if_false] at h
      simp only [Except.ok.injEq, Prod.mk.injEq] at h
      exact h.2.2.symm
  · intro s' sess' h
    cases hany : s.rows.any (fun r => r.name == name) with
    | true =>
      simp only [managerRemoveCustomModel, deleteCustomModel, Bool.false_eq_true, if_false,
        hany] at h
      simp only [Except.ok.injEq, Prod.mk.injEq] at h
      exact h.2.2.symm
    | false =>
      simp [managerRemoveCustomModel, deleteCustomModel, hany] at h
  · intro b s' sess' h
    by_cases hf : f.isEmpty = true
    · simp only [systemUpdateCustomModel, updateCustomModel, hf, if_true] at h
      simp only [Except.ok.injEq, Prod.mk.injEq] at h
      exact h.2.2.symm
    · have hf' : f.isEmpty = false := by simpa using hf
      simp only [systemUpdateCustomModel, updateCustomModel, hf', Bool.false_eq_true,
        if_false] at h
      simp only [Except.ok.injEq, Prod.mk.injEq] at h
      exact h.2.2.symm

/-- C8 witness: a successful manager create against an empty store drops the
previously populated cache. -/
theorem C8_witness :
    managerAddCustomModel 0 "B" "OpenAIChatCompletionClient" "m" "" defaultTemperature ""
      emptyStore ⟨some []⟩
      = .ok (true, ⟨[mkRow 0 "B" "m" "OpenAIChatCompletionClient"
          "https://openrouter.ai/api/v1" defaultTemperature "OPENROUTER" 1], 2⟩, ⟨none⟩)
    ∧ (⟨none⟩ : SessionState) = ⟨none⟩ :=
  ⟨rfl,
   (C8_cache_invalidation_amended 0 "B" "OpenAIChatCompletionClient" "m" "" defaultTemperature
      "" ⟨none, none, none, none, none⟩ emptyStore ⟨some []⟩ ⟨.absent, false⟩).1
     ⟨[mkRow 0 "B" "m" "OpenAIChatCompletionClient" "https://openrouter.ai/api/v1"
         defaultTemperature "OPENROUTER" 1], 2⟩
     ⟨none⟩ rfl⟩

/-- C9 counterexample: the claim says the legacy source is renamed away
whenever it is present and processed.  A legacy file that parses to the empty
list is present and processed (opened and loaded), but the rename sits
inside `if json_models:`, which is false for an empty list — so the file
still exists at the legacy path afterwards. -/
theorem C9_counterexample_empty_legacy_not_renamed :
    migrateJsonToSqlite 0 ⟨LegacyFile.parsed [], false⟩ emptyStore
      = (⟨LegacyFile.parsed [], false⟩, emptyStore) := rfl

/-- C9 (amended): when the legacy file is present and parses to at least one
record, processing renames it to the backup path, so it no longer exists at
the legacy path and a second invocation finds nothing and is a no-op.  A
legacy file parsing to the empty list is left in place (as the
counterexample shows), and re-running then — like re-running with the file
absent or unparseable — is a safe no-op that changes neither the file system
nor the store. -/
theorem C9_legacy_marking_amended (now now' : Nat) (models : List LegacyModel)
    (b : Bool) (s : Store) (hne : models ≠ []) :
    (∃ s' : Store,
      migrateJsonToSqlite now ⟨.parsed models, b⟩ s = (⟨.absent, true⟩, s')
      ∧ migrateJsonToSqlite now' ⟨.absent, true⟩ s' = (⟨.absent, true⟩, s'))
    ∧ migrateJsonToSqlite now ⟨.parsed [], b⟩ s = (⟨.parsed [], b⟩, s)
    ∧ migrateJsonToSqlite now ⟨.absent, b⟩ s = (⟨.absent, b⟩, s)
    ∧ migrateJsonToSqlite now ⟨.invalid, b⟩ s = (⟨.invalid, b⟩, s) := by
  refine ⟨?_, rfl, rfl, rfl⟩
  obtain ⟨n, s', tail, heq, _⟩ := migrateFromJson_ok now models s
  refine ⟨s', ?_, rfl⟩
  have hempty : models.isEmpty = false := by
    cases models with
    | nil => exact absurd rfl hne
    | cons x xs => rfl
  simp only [migrateJsonToSqlite, hempty, Bool.false_eq_true, if_false, heq]

/-- C9 witness: a one-record legacy file is consumed (renamed away) and the
second invocation is a no-op. -/
theorem C9_witness :
    (∃ s' : Store,
      migrateJsonToSqlite 0
          ⟨.parsed [(⟨some "Old1", none, some ⟨some "x", none, none⟩, none⟩ : LegacyModel)],
            false⟩ emptyStore
        = (⟨.absent, true⟩, s')
      ∧ migrateJsonToSqlite 1 ⟨.absent, true⟩ s' = (⟨.absent, true⟩, s'))
    ∧ migrateJsonToSqlite 0 ⟨.parsed [], false⟩ emptyStore
        = (⟨.parsed [], false⟩, emptyStore)
    ∧ migrateJsonToSqlite 0 ⟨.absent, false⟩ emptyStore
        = (⟨.absent, false⟩, emptyStore)
    ∧ migrateJsonToSqlite 0 ⟨.invalid, false⟩ emptyStore
        = (⟨.invalid, false⟩, emptyStore) :=
  C9_legacy_marking_amended 0 1
    [(⟨some "Old1", none, some ⟨some "x", none, none⟩, none⟩ : LegacyModel)]
    false emptyStore (by simp)

/-- C10: round trip between export and migration.  For a store whose rows
have pairwise distinct names (the UNIQUE invariant) and non-empty `name` and
`model_id`, feeding the `get_all_custom_models` export to `migrate_from_json`
against an empty store migrates exactly one record per row and reproduces,
for every row, the `name`, `provider`, `model_id`, `base_url`, `temperature`
and `api_provider` (the new rows are a permutation of the originals on those six
fields; ids and timestamps are freshly assigned). -/
theorem C10_export_migrate_round_trip (now : Nat) (s : Store)
    (hnodup : s.names.Nodup)
    (hvalid : ∀ r ∈ s.rows, r.name ≠ "" ∧ r.model_id ≠ "") :
    ∃ s' : Store,
      migrateFromJson now ((getAllCustomModels s).map exportedToLegacy) emptyStore
        = .ok (s.rows.length, s')
      ∧ (s'.rows.map Row.profile).Perm (s.rows.map Row.profile) := by
  have hperm := sortRowsByName_perm s.rows
  have hlist : (getAllCustomModels s).map exportedToLegacy
      = (sortRowsByName s.rows).map (fun r => exportedToLegacy (exportRow r)) := by
    simp [getAllCustomModels, List.map_map]
  obtain ⟨s', heq, hprof⟩ := migrateFromJson_fresh now (sortRowsByName s.rows) emptyStore
    (((hperm.map Row.name).nodup_iff).mpr hnodup)
    (fun r hr => hvalid r (hperm.mem_iff.mp hr))
    (fun r _ => rfl)
  refine ⟨s', ?_, ?_⟩
  · rw [hlist, heq, hperm.length_eq]
  · rw [hprof]
    simpa using hperm.map Row.profile

/-- C10 witness: the round trip for a store holding one valid row. -/
theorem C10_witness :
    ∃ s' : Store,
      migrateFromJson 3 ((getAllCustomModels storeA).map exportedToLegacy) emptyStore
        = .ok (storeA.rows.length, s')
      ∧ (s'.rows.map Row.profile).Perm (storeA.rows.map Row.profile) :=
  C10_export_migrate_round_trip 3 storeA (by decide) (by decide)
